import Mathlib

/-!
Verification of the conversion core of `streamlit_app.py` (bank statement to
Odoo-format converter).

The computational core of the repository is the function `convert_statement`
together with its inner helpers `parse_amount` and `compute_amount`.  We give a
shallow embedding:

* spreadsheet cell values are `Val` (missing/NaN, numeric, or text);
* Python `float` values are modelled as rationals `ℚ` (the amounts in scope are
  decimals with a handful of fraction digits, where Python arithmetic agrees
  with exact rational arithmetic);
* the text-normalisation pipeline of `parse_amount` is modelled character by
  character, including the grammar accepted by Python's `float(str)`;
* `round(x, 2)` is modelled as round-half-to-even at two decimal places;
* a pandas `DataFrame` is a list of named columns of cells, and
  `convert_statement` is written in state-passing style, returning the final
  value of its input frame next to its result, so that absence of mutation is a
  provable statement;
* `pd.to_datetime` is a library routine outside the repository; it is kept
  abstract as a parameter `toDT : Val → PDate` producing a parsed calendar
  date, while the `.dt.strftime("%Y-%m-%d")` formatting step is modelled
  concretely by `strftimeYmd`.
-/

namespace BankConv

/-- Value of one spreadsheet cell as seen by `parse_amount`: `null` stands for
the values caught by `pd.isna` (None/NaN), `num` for values that are already
`int`/`float`, and `str` for text. -/
inductive Val where
  | null : Val
  | num : ℚ → Val
  | str : String → Val
deriving DecidableEq, Repr

/-- Whitespace stripped by Python's `str.strip()`; we list the usual ASCII
whitespace plus the non-breaking space.  Any further exotic whitespace would in
any case be deleted by the later `[^0-9.\-]` filter, so this set is exhaustive
for the observable behaviour of `parse_amount`. -/
def pyIsSpace (c : Char) : Bool :=
  c = ' ' || c = '\t' || c = '\n' || c = '\r' || c = '\u000B' || c = '\u000C' || c = ' '

/-- Python `str.strip()`: drop leading and trailing whitespace. -/
def pyStrip (cs : List Char) : List Char :=
  ((cs.dropWhile pyIsSpace).reverse.dropWhile pyIsSpace).reverse

/-- Numeric value of a digit string, most significant digit first
(`natOfDigits ['1','2'] = 12`). -/
def natOfDigits (cs : List Char) : ℕ :=
  cs.foldl (fun a c => 10 * a + (c.toNat - 48)) 0

/-- Grammar accepted by Python's `float(s)` for an unsigned `s` drawn from the
alphabet `0-9`, `.`, `-` (the only characters surviving the `re.sub` filter in
`parse_amount`): an integer part, an optional dot and fraction part, at least
one digit in total, and no stray `-` or second dot.  Returns the exact decimal
value. -/
def pyFloatCore (cs : List Char) : Option ℚ :=
  let ip := cs.takeWhile (fun c => c.isDigit)
  let rest := cs.dropWhile (fun c => c.isDigit)
  match rest with
  | [] => if ip.isEmpty then none else some (natOfDigits ip)
  | '.' :: fp =>
      if fp.all (fun c => c.isDigit) && !(ip.isEmpty && fp.isEmpty) then
        some ((natOfDigits ip : ℚ) + (natOfDigits fp : ℚ) / (10 : ℚ) ^ fp.length)
      else none
  | _ => none

/-- Python's `float(s)` on a string over the alphabet `0-9`, `.`, `-`: an
optional leading minus sign followed by the unsigned grammar `pyFloatCore`;
`none` models the `ValueError` caught by `parse_amount`. -/
def pyFloatOfChars (cs : List Char) : Option ℚ :=
  match cs with
  | '-' :: rest => (pyFloatCore rest).map (fun q => -q)
  | _ => pyFloatCore cs

/-- Text normalisation performed by `parse_amount` before calling `float`:
`str.strip()`, then `replace(" ", "")` and `replace("\xa0", "")` (delete plain
and non-breaking spaces), then `replace(",", ".")` (comma decimal separator to
dot), then `re.sub(r"[^0-9.\-]", "", s)` (delete every character that is not a
digit, dot or minus). -/
def normalizeAmountChars (cs : List Char) : List Char :=
  let s1 := pyStrip cs
  let s2 := s1.filter (fun c => !(c = ' ' || c = ' '))
  let s3 := s2.map (fun c => if c = ',' then '.' else c)
  s3.filter (fun c => c.isDigit || c = '.' || c = '-')

/-- Model of the inner helper `parse_amount` of `convert_statement`:
`pd.isna(val)` yields `0.0`; an `int`/`float` passes through `float(val)`
unchanged; text is normalised and parsed, with `0.0` on parse failure. -/
def parse_amount (v : Val) : ℚ :=
  match v with
  | Val.null => 0
  | Val.num q => q
  | Val.str s =>
      match pyFloatOfChars (normalizeAmountChars s.data) with
      | some q => q
      | none => 0

/-- Model of the inner helper `compute_amount` of `convert_statement`:
`if d != 0.0: return -d` and `return c` otherwise. -/
def compute_amount (d c : ℚ) : ℚ :=
  if d ≠ 0 then -d else c

/-- Round-half-to-even to the nearest integer, the tie-breaking rule of
Python's builtin `round`. -/
def roundHalfEven (q : ℚ) : ℤ :=
  if q - ⌊q⌋ < 1 / 2 then ⌊q⌋
  else if 1 / 2 < q - ⌊q⌋ then ⌊q⌋ + 1
  else if ⌊q⌋ % 2 = 0 then ⌊q⌋ else ⌊q⌋ + 1

/-- Model of Python's `round(x, 2)`: round-half-to-even at two decimal
places. -/
def pyRound2 (q : ℚ) : ℚ :=
  (roundHalfEven (q * 100) : ℚ) / 100

/-- Calendar date as produced by the external library routine
`pd.to_datetime` (pandas timestamps always carry a four-digit year). -/
structure PDate where
  year : ℕ
  month : ℕ
  day : ℕ
deriving DecidableEq, Repr

/-- Decimal representation of `n` left-padded with zeros to width `w`. -/
def padZeros (w : ℕ) (n : ℕ) : String :=
  let s := toString n
  String.mk (List.replicate (w - s.length) '0') ++ s

/-- Model of `.dt.strftime("%Y-%m-%d")` on a parsed timestamp: four-digit
year, two-digit month and day, separated by hyphens. -/
def strftimeYmd (d : PDate) : String :=
  padZeros 4 d.year ++ "-" ++ padZeros 2 d.month ++ "-" ++ padZeros 2 d.day

/-- A pandas `DataFrame`, modelled as its list of named columns in order. -/
structure DataFrame where
  cols : List (String × List Val)
deriving DecidableEq, Repr

/-- Column labels of the frame, in order (`df.columns`). -/
def DataFrame.columns (df : DataFrame) : List String :=
  df.cols.map Prod.fst

/-- Column selection `df[c]`: the cells of the first column labelled `c`,
`[]` when absent (only used after validation). -/
def DataFrame.get (df : DataFrame) (c : String) : List Val :=
  match df.cols.find? (fun p => p.1 == c) with
  | some p => p.2
  | none => []

/-- The five required input column names, in the order listed by
`convert_statement`. -/
def required : List String :=
  ["Operation DT", "Detailed description", "Reference", "Debit", "Credit"]

/-- The output frame built by the success path of `convert_statement`:
columns `Date`, `Label`, `Reference`, `Amount` in insertion order, where
`Date` maps `Operation DT` through `pd.to_datetime` (abstract `toDT`) and
`strftime`, `Label` and `Reference` copy their source columns, and `Amount`
zips the parsed `Debit` and `Credit` columns through `compute_amount` and
`round(·, 2)`. -/
def outputOf (toDT : Val → PDate) (df : DataFrame) : DataFrame :=
  ⟨[("Date", (df.get "Operation DT").map (fun v => Val.str (strftimeYmd (toDT v)))),
    ("Label", df.get "Detailed description"),
    ("Reference", df.get "Reference"),
    ("Amount",
      (((df.get "Debit").map parse_amount).zip ((df.get "Credit").map parse_amount)).map
        (fun p => Val.num (pyRound2 (compute_amount p.1 p.2))))]⟩

/-- The list `missing` computed by `convert_statement`: required column names
absent from `df.columns`, in `required` order.  The raised `ValueError`
message interpolates exactly this list, so it doubles as the error payload in
the embedding.  The whole `convert_statement` model is in state-passing style:
the first component of its result is the input frame as it stands after the
call (the source never assigns into `df`, so the frame is threaded through
unchanged). -/
def missingOf (df : DataFrame) : List String :=
  required.filter (fun c => !(df.columns.contains c))

/-- Model of `convert_statement(df)` proper: when `missing` (the required
column names absent from `df.columns`, see `missingOf`) is non-empty a
`ValueError` interpolating `missing` is raised, else the output frame is
built. -/
def convert_statement (toDT : Val → PDate) (df : DataFrame) :
    DataFrame × Except (List String) DataFrame :=
  if (missingOf df).isEmpty then (df, Except.ok (outputOf toDT df))
  else (df, Except.error (missingOf df))

/-- Abstract stand-in for `pd.to_datetime` used with the concrete fixture
frames: every cell parses to 2026-02-24, the first date of the repository's
own test data.  The theorems below hold for every `toDT`, this one only feeds
the concrete witnesses. -/
def toDT0 : Val → PDate := fun _ => ⟨2026, 2, 24⟩

/-- Concrete input frame mirroring the seven rows of
`tests/test_conversion.py::test_basic_conversion`. -/
def dfEx : DataFrame :=
  ⟨[("Operation DT",
      [Val.str "2026-02-24", Val.str "2026-02-25", Val.str "2026-02-26",
       Val.str "2026-02-27", Val.str "2026-02-28", Val.str "2026-03-01",
       Val.str "2026-03-02"]),
    ("Detailed description",
      [Val.str "Foo", Val.str "Bar", Val.str "Baz", Val.str "Comma debit",
       Val.str "Comma credit", Val.str "Text suffix", Val.str "Precision"]),
    ("Reference",
      [Val.str "R1", Val.str "R2", Val.str "R3", Val.str "R4", Val.str "R5",
       Val.str "R6", Val.str "R7"]),
    ("Debit",
      [Val.num 50, Val.null, Val.num 0, Val.str "665,00", Val.null,
       Val.str "665,00 credit", Val.null]),
    ("Credit",
      [Val.null, Val.num 75.5, Val.num 0, Val.null, Val.str "1 234,50",
       Val.null, Val.str "4631,36"])]⟩

/-- Frame missing three required columns, as in
`tests/test_conversion.py::test_missing_column_raises`. -/
def dfMissing : DataFrame :=
  ⟨[("Operation DT", [Val.str "x"]), ("Debit", [Val.num 10])]⟩

/-- One-row frame whose `Debit` cell holds a negative number; it exercises
the sign behaviour of `compute_amount`. -/
def dfNegDebit : DataFrame :=
  ⟨[("Operation DT", [Val.str "2026-02-24"]),
    ("Detailed description", [Val.str "refund"]),
    ("Reference", [Val.str "R1"]),
    ("Debit", [Val.num (-50)]),
    ("Credit", [Val.num 0])]⟩

/-! Shared helper lemmas. -/

lemma missingOf_isEmpty_iff (df : DataFrame) :
    (missingOf df).isEmpty ↔ ∀ c ∈ required, c ∈ df.columns := by
  simp [missingOf, List.isEmpty_iff, List.filter_eq_nil_iff, List.contains]

lemma convert_ok_out {toDT : Val → PDate} {df out : DataFrame}
    (hok : (convert_statement toDT df).2 = Except.ok out) :
    out = outputOf toDT df := by
  unfold convert_statement at hok
  split at hok
  · exact (Except.ok.inj hok).symm
  · exact absurd hok (by simp)

lemma outputOf_get_date (toDT : Val → PDate) (df : DataFrame) :
    (outputOf toDT df).get "Date" =
      (df.get "Operation DT").map (fun v => Val.str (strftimeYmd (toDT v))) := rfl

lemma outputOf_get_label (toDT : Val → PDate) (df : DataFrame) :
    (outputOf toDT df).get "Label" = df.get "Detailed description" := rfl

lemma outputOf_get_reference (toDT : Val → PDate) (df : DataFrame) :
    (outputOf toDT df).get "Reference" = df.get "Reference" := rfl

lemma outputOf_get_amount (toDT : Val → PDate) (df : DataFrame) :
    (outputOf toDT df).get "Amount" =
      (((df.get "Debit").map parse_amount).zip ((df.get "Credit").map parse_amount)).map
        (fun p => Val.num (pyRound2 (compute_amount p.1 p.2))) := rfl

lemma amount_elem {toDT : Val → PDate} {df out : DataFrame}
    (hok : (convert_statement toDT df).2 = Except.ok out)
    {i : ℕ} {vd vc : Val}
    (hd : (df.get "Debit")[i]? = some vd)
    (hc : (df.get "Credit")[i]? = some vc) :
    (out.get "Amount")[i]? =
      some (Val.num (pyRound2 (compute_amount (parse_amount vd) (parse_amount vc)))) := by
  have hout := convert_ok_out hok
  subst hout
  rw [outputOf_get_amount, List.getElem?_map]
  have hz : (((df.get "Debit").map parse_amount).zip
      ((df.get "Credit").map parse_amount))[i]? =
      some (parse_amount vd, parse_amount vc) := by
    refine List.getElem?_zip_eq_some.mpr ?_
    constructor
    · rw [List.getElem?_map, hd]; rfl
    · rw [List.getElem?_map, hc]; rfl
  rw [hz]
  rfl

lemma date_label_ref_elem {toDT : Val → PDate} {df out : DataFrame}
    (hok : (convert_statement toDT df).2 = Except.ok out)
    {i : ℕ} {vo vl vr : Val}
    (ho : (df.get "Operation DT")[i]? = some vo)
    (hl : (df.get "Detailed description")[i]? = some vl)
    (hr : (df.get "Reference")[i]? = some vr) :
    (out.get "Date")[i]? = some (Val.str (strftimeYmd (toDT vo))) ∧
    (out.get "Label")[i]? = some vl ∧
    (out.get "Reference")[i]? = some vr := by
  have hout := convert_ok_out hok
  subst hout
  refine ⟨?_, ?_, ?_⟩
  · rw [outputOf_get_date, List.getElem?_map, ho]; rfl
  · rw [outputOf_get_label, hl]
  · rw [outputOf_get_reference, hr]

lemma floor_rhe_le (q : ℚ) : ⌊q⌋ ≤ roundHalfEven q := by
  unfold roundHalfEven
  split_ifs <;> omega

lemma rhe_le_floor_add_one (q : ℚ) : roundHalfEven q ≤ ⌊q⌋ + 1 := by
  unfold roundHalfEven
  split_ifs <;> omega

lemma rhe_pos_of_one_le {q : ℚ} (h : 1 ≤ q) : 0 < roundHalfEven q := by
  have h1 : (1 : ℤ) ≤ ⌊q⌋ := by
    rw [Int.le_floor]; exact_mod_cast h
  have := floor_rhe_le q
  omega

lemma rhe_neg_of_le_neg_one {q : ℚ} (h : q ≤ -1) : roundHalfEven q < 0 := by
  have hf : ⌊q⌋ ≤ -1 := by
    calc ⌊q⌋ ≤ ⌊(-1 : ℚ)⌋ := Int.floor_mono h
    _ = -1 := by exact_mod_cast Int.floor_intCast (α := ℚ) (-1)
  unfold roundHalfEven
  split_ifs with h1 h2 h3
  · omega
  · -- round-up branch: `1/2 < q - ⌊q⌋` forces `⌊q⌋ ≤ -2`
    have : (⌊q⌋ : ℚ) < -1 := by
      have hlt : (⌊q⌋ : ℚ) < q - 1 / 2 := by linarith
      linarith
    have : ⌊q⌋ < -1 := by exact_mod_cast this
    omega
  · omega
  · -- tie branch with `⌊q⌋` odd: `q - ⌊q⌋ = 1/2` forces `⌊q⌋ ≤ -2`
    have hhalf : q - (⌊q⌋ : ℚ) = 1 / 2 := le_antisymm (not_lt.mp h2) (not_lt.mp h1)
    have : (⌊q⌋ : ℚ) < -1 := by linarith
    have : ⌊q⌋ < -1 := by exact_mod_cast this
    omega

lemma rhe_intCast (k : ℤ) : roundHalfEven (k : ℚ) = k := by
  unfold roundHalfEven
  rw [Int.floor_intCast]
  simp

lemma pyRound2_div100 (k : ℤ) : pyRound2 ((k : ℚ) / 100) = (k : ℚ) / 100 := by
  unfold pyRound2
  rw [div_mul_cancel₀ (k : ℚ) (by norm_num : (100 : ℚ) ≠ 0), rhe_intCast]

lemma pyRound2_zero : pyRound2 0 = 0 := by
  have h : ((0 : ℤ) : ℚ) / 100 = 0 := by norm_num
  calc pyRound2 0 = pyRound2 (((0 : ℤ) : ℚ) / 100) := by rw [h]
  _ = ((0 : ℤ) : ℚ) / 100 := pyRound2_div100 0
  _ = 0 := h

lemma mem_missingOf_iff {df : DataFrame} {c : String} :
    c ∈ missingOf df ↔ c ∈ required ∧ c ∉ df.columns := by
  simp [missingOf, List.mem_filter]

lemma convert_snd_ok {toDT : Val → PDate} {df : DataFrame}
    (hall : ∀ c ∈ required, c ∈ df.columns) :
    (convert_statement toDT df).2 = Except.ok (outputOf toDT df) := by
  unfold convert_statement
  rw [if_pos ((missingOf_isEmpty_iff df).mpr hall)]

lemma convert_snd_error {toDT : Val → PDate} {df : DataFrame}
    (hne : ¬ ∀ c ∈ required, c ∈ df.columns) :
    (convert_statement toDT df).2 = Except.error (missingOf df) := by
  unfold convert_statement
  rw [if_neg (fun h => hne ((missingOf_isEmpty_iff df).mp h))]

lemma missingOf_ne_nil {df : DataFrame}
    (hne : ¬ ∀ c ∈ required, c ∈ df.columns) : missingOf df ≠ [] := by
  intro h
  exact hne ((missingOf_isEmpty_iff df).mp (by simp [h]))

/-! Claim theorems. -/

/-- C1: for every input row, with `d` the parsed `Debit` and `c` the parsed
`Credit` of that row, the `Amount` of the corresponding output row equals
`-d` rounded to two decimal places when `d ≠ 0`, and `c` rounded to two
decimal places when `d = 0`. -/
theorem convert_amount_rule (toDT : Val → PDate) (df out : DataFrame)
    (hok : (convert_statement toDT df).2 = Except.ok out)
    (i : ℕ) (vd vc : Val)
    (hd : (df.get "Debit")[i]? = some vd)
    (hc : (df.get "Credit")[i]? = some vc) :
    (out.get "Amount")[i]? =
      some (Val.num (if parse_amount vd ≠ 0 then pyRound2 (-parse_amount vd)
                     else pyRound2 (parse_amount vc))) := by
  rw [amount_elem hok hd hc]
  unfold compute_amount
  split_ifs <;> rfl

/-- Witness for C1: row 0 of the fixture frame (`Debit` 50, `Credit` NaN)
produces `Amount` -50. -/
theorem convert_amount_rule_witness :
    ((outputOf toDT0 dfEx).get "Amount")[0]? = some (Val.num (-50)) := by
  have h := convert_amount_rule toDT0 dfEx (outputOf toDT0 dfEx) rfl 0
      (Val.num 50) Val.null rfl rfl
  exact h.trans (by with_unfolding_all rfl)

/-- C2: on text input, `parse_amount` returns the decimal obtained by
stripping, deleting plain and non-breaking spaces, turning commas into dots,
deleting every character other than digit/dot/minus and parsing the rest as a
decimal; in particular `"665,00"` parses to 665, `"1 234,50"` to 1234.50 and
`"665,00 credit"` to 665. -/
theorem parse_amount_text_rule :
    (∀ s : String, ∀ q : ℚ,
        pyFloatOfChars (normalizeAmountChars s.data) = some q →
        parse_amount (Val.str s) = q) ∧
    parse_amount (Val.str "665,00") = 665 ∧
    parse_amount (Val.str "1 234,50") = 1234.50 ∧
    parse_amount (Val.str "665,00 credit") = 665 := by
  refine ⟨fun s q h => ?_, ?_, ?_, ?_⟩
  · have hdef : parse_amount (Val.str s) =
        match pyFloatOfChars (normalizeAmountChars s.data) with
        | some q => q
        | none => 0 := rfl
    rw [hdef, h]
  · with_unfolding_all rfl
  · with_unfolding_all rfl
  · with_unfolding_all rfl

/-- Witness for C2: a negative comma-decimal amount with a thousands space
parses to the expected decimal. -/
theorem parse_amount_text_rule_witness :
    parse_amount (Val.str "-1 234,56") = -1234.56 :=
  parse_amount_text_rule.1 "-1 234,56" (-1234.56) (by with_unfolding_all rfl)

/-- C3: `convert_statement` fails with a validation error iff one of the five
required column names is absent; the error payload lists exactly the missing
names, and when all five are present the conversion succeeds. -/
theorem convert_validation_rule (toDT : Val → PDate) (df : DataFrame) :
    ((∃ e, (convert_statement toDT df).2 = Except.error e) ↔
      ¬ ∀ c ∈ required, c ∈ df.columns) ∧
    (∀ e, (convert_statement toDT df).2 = Except.error e →
      e ≠ [] ∧ ∀ c, c ∈ e ↔ c ∈ required ∧ c ∉ df.columns) ∧
    ((∀ c ∈ required, c ∈ df.columns) →
      (convert_statement toDT df).2 = Except.ok (outputOf toDT df)) := by
  by_cases hall : ∀ c ∈ required, c ∈ df.columns
  · have hok := @convert_snd_ok toDT df hall
    refine ⟨?_, ?_, fun _ => hok⟩
    · simp only [hok]
      simp only [reduceCtorEq, exists_false, false_iff, not_not]
      exact hall
    · intro e he
      rw [hok] at he
      exact absurd he (by simp)
  · have herr := @convert_snd_error toDT df hall
    refine ⟨⟨fun _ => hall, fun _ => ⟨missingOf df, herr⟩⟩, ?_, fun h => absurd h hall⟩
    intro e he
    rw [herr] at he
    have hedef : e = missingOf df := (Except.error.inj he).symm
    subst hedef
    exact ⟨missingOf_ne_nil hall, fun c => mem_missingOf_iff⟩

/-- Witness for C3: a frame lacking `Reference` (and more) makes
`convert_statement` raise. -/
theorem convert_validation_rule_witness :
    ∃ e, (convert_statement toDT0 dfMissing).2 = Except.error e :=
  (convert_validation_rule toDT0 dfMissing).1.mpr (by decide)

/-- C4: null/NaN input, empty text, and text whose normalisation does not
parse as a decimal all make `parse_amount` return 0.0 instead of raising. -/
theorem parse_amount_default_rule :
    parse_amount Val.null = 0 ∧
    parse_amount (Val.str "") = 0 ∧
    (∀ s : String, pyFloatOfChars (normalizeAmountChars s.data) = none →
      parse_amount (Val.str s) = 0) := by
  refine ⟨rfl, rfl, fun s h => ?_⟩
  have hdef : parse_amount (Val.str s) =
      match pyFloatOfChars (normalizeAmountChars s.data) with
      | some q => q
      | none => 0 := rfl
  rw [hdef, h]

/-- Witness for C4: the unparsable text `"N/A"` falls back to 0. -/
theorem parse_amount_default_rule_witness :
    parse_amount (Val.str "N/A") = 0 :=
  parse_amount_default_rule.2.2 "N/A" rfl

/-- C5: each output row's `Date` is the row's `Operation DT` cell parsed by
the date library (`toDT`) and formatted `"YYYY-MM-DD"`, and `Label` and
`Reference` copy `Detailed description` and `Reference` verbatim. -/
theorem convert_row_fields (toDT : Val → PDate) (df out : DataFrame)
    (hok : (convert_statement toDT df).2 = Except.ok out)
    (i : ℕ) (vo vl vr : Val)
    (ho : (df.get "Operation DT")[i]? = some vo)
    (hl : (df.get "Detailed description")[i]? = some vl)
    (hr : (df.get "Reference")[i]? = some vr) :
    (out.get "Date")[i]? = some (Val.str (strftimeYmd (toDT vo))) ∧
    (out.get "Label")[i]? = some vl ∧
    (out.get "Reference")[i]? = some vr :=
  date_label_ref_elem hok ho hl hr

/-- Witness for C5: row 0 of the fixture frame keeps its description and
reference and gets the ISO-formatted parsed date. -/
theorem convert_row_fields_witness :
    ((outputOf toDT0 dfEx).get "Date")[0]? = some (Val.str "2026-02-24") ∧
    ((outputOf toDT0 dfEx).get "Label")[0]? = some (Val.str "Foo") ∧
    ((outputOf toDT0 dfEx).get "Reference")[0]? = some (Val.str "R1") := by
  have h := convert_row_fields toDT0 dfEx (outputOf toDT0 dfEx) rfl 0
      (Val.str "2026-02-24") (Val.str "Foo") (Val.str "R1") rfl rfl rfl
  exact ⟨h.1.trans (by with_unfolding_all rfl), h.2.1, h.2.2⟩

/-- Counterexample to C6 as stated: on a row with `Debit` -50 and `Credit` 0
the parsed `Debit` is non-zero, yet the output `Amount` is 50, which is not
negative. -/
theorem convert_sign_counterexample :
    (dfNegDebit.get "Debit")[0]? = some (Val.num (-50)) ∧
    parse_amount (Val.num (-50)) ≠ 0 ∧
    (convert_statement toDT0 dfNegDebit).2 = Except.ok (outputOf toDT0 dfNegDebit) ∧
    (outputOf toDT0 dfNegDebit).get "Amount" = [Val.num 50] ∧
    ¬ (50 : ℚ) < 0 := by
  refine ⟨rfl, by norm_num [parse_amount], rfl, by with_unfolding_all rfl, by norm_num⟩

/-- C6 as amended: on rows whose parsed `Debit` and `Credit` are either zero
or at least 0.01 (so nonnegative, and not rounded away at two decimals), the
row's `Amount` is driven by a single field with the correct sign: a non-zero
`Debit` yields a negative `Amount` and makes `Credit` irrelevant, a zero
`Debit` with non-zero `Credit` yields a positive `Amount`, and two zero
fields yield zero. -/
theorem convert_sign_amended (toDT : Val → PDate) (df out : DataFrame)
    (hok : (convert_statement toDT df).2 = Except.ok out)
    (i : ℕ) (vd vc : Val)
    (hd : (df.get "Debit")[i]? = some vd)
    (hc : (df.get "Credit")[i]? = some vc)
    (hdmin : parse_amount vd ≠ 0 → 1 / 100 ≤ parse_amount vd)
    (hcmin : parse_amount vc ≠ 0 → 1 / 100 ≤ parse_amount vc) :
    ∃ a : ℚ, (out.get "Amount")[i]? = some (Val.num a) ∧
      (parse_amount vd ≠ 0 → a < 0) ∧
      (parse_amount vd = 0 → parse_amount vc ≠ 0 → 0 < a) ∧
      (parse_amount vd = 0 → parse_amount vc = 0 → a = 0) ∧
      (parse_amount vd ≠ 0 →
        ∀ c2 : ℚ, compute_amount (parse_amount vd) c2 = -parse_amount vd) := by
  refine ⟨pyRound2 (compute_amount (parse_amount vd) (parse_amount vc)),
    amount_elem hok hd hc, ?_, ?_, ?_, ?_⟩
  · intro hdne
    have hcomp : compute_amount (parse_amount vd) (parse_amount vc) =
        -parse_amount vd := by
      unfold compute_amount
      rw [if_pos hdne]
    rw [hcomp]
    have hle : -parse_amount vd * 100 ≤ -1 := by
      have := hdmin hdne
      linarith
    unfold pyRound2
    apply div_neg_of_neg_of_pos
    · exact_mod_cast rhe_neg_of_le_neg_one hle
    · norm_num
  · intro hd0 hcne
    have hcomp : compute_amount (parse_amount vd) (parse_amount vc) =
        parse_amount vc := by
      unfold compute_amount
      rw [if_neg (not_not.mpr hd0)]
    rw [hcomp]
    have hle : (1 : ℚ) ≤ parse_amount vc * 100 := by
      have := hcmin hcne
      linarith
    unfold pyRound2
    apply div_pos
    · exact_mod_cast rhe_pos_of_one_le hle
    · norm_num
  · intro hd0 hc0
    have hcomp : compute_amount (parse_amount vd) (parse_amount vc) = 0 := by
      unfold compute_amount
      rw [if_neg (not_not.mpr hd0), hc0]
    rw [hcomp, pyRound2_zero]
  · intro hdne c2
    unfold compute_amount
    rw [if_pos hdne]

/-- Witness for the amended C6: row 1 of the fixture frame (`Debit` NaN,
`Credit` 75.5). -/
theorem convert_sign_amended_witness :
    ∃ a : ℚ, ((outputOf toDT0 dfEx).get "Amount")[1]? = some (Val.num a) ∧
      (parse_amount Val.null ≠ 0 → a < 0) ∧
      (parse_amount Val.null = 0 → parse_amount (Val.num 75.5) ≠ 0 → 0 < a) ∧
      (parse_amount Val.null = 0 → parse_amount (Val.num 75.5) = 0 → a = 0) ∧
      (parse_amount Val.null ≠ 0 →
        ∀ c2 : ℚ, compute_amount (parse_amount Val.null) c2 = -parse_amount Val.null) :=
  convert_sign_amended toDT0 dfEx (outputOf toDT0 dfEx) rfl 1 Val.null (Val.num 75.5)
    rfl rfl (fun h => absurd rfl h)
    (fun _ => by
      have hv : parse_amount (Val.num 75.5) = 75.5 := rfl
      rw [hv]
      norm_num)

/-- C7: `parse_amount` passes already-numeric values through unchanged, so it
is idempotent: parsing an already-parsed value returns it as is. -/
theorem parse_amount_idempotent :
    (∀ q : ℚ, parse_amount (Val.num q) = q) ∧
    (∀ v : Val, parse_amount (Val.num (parse_amount v)) = parse_amount v) :=
  ⟨fun _ => rfl, fun _ => rfl⟩

/-- C8: a parsed amount with at most two fraction digits (an integer number
of cents, `k / 100`) passes through `round(·, 2)` unchanged, so the output
`Amount` is exactly `-Debit` or `Credit` with no drift. -/
theorem convert_two_decimal_exact (toDT : Val → PDate) (df out : DataFrame)
    (hok : (convert_statement toDT df).2 = Except.ok out)
    (i : ℕ) (vd vc : Val) (k m : ℤ)
    (hd : (df.get "Debit")[i]? = some vd)
    (hc : (df.get "Credit")[i]? = some vc)
    (hdk : parse_amount vd = (k : ℚ) / 100)
    (hck : parse_amount vc = (m : ℚ) / 100) :
    (out.get "Amount")[i]? =
      some (Val.num (if parse_amount vd ≠ 0 then -parse_amount vd
                     else parse_amount vc)) := by
  have key : pyRound2 (compute_amount (parse_amount vd) (parse_amount vc)) =
      if parse_amount vd ≠ 0 then -parse_amount vd else parse_amount vc := by
    unfold compute_amount
    split_ifs with h
    · rw [hdk]
      have hneg : -((k : ℚ) / 100) = ((-k : ℤ) : ℚ) / 100 := by
        push_cast
        ring
      rw [hneg, pyRound2_div100]
    · rw [hck, pyRound2_div100]
  rw [amount_elem hok hd hc, key]

/-- Witness for C8: row 6 of the fixture frame carries the two-decimal credit
`"4631,36"` and the output `Amount` is exactly 4631.36. -/
theorem convert_two_decimal_exact_witness :
    ((outputOf toDT0 dfEx).get "Amount")[6]? = some (Val.num (4631.36 : ℚ)) := by
  have h := convert_two_decimal_exact toDT0 dfEx (outputOf toDT0 dfEx) rfl 6
      Val.null (Val.str "4631,36") 0 463136 rfl rfl
      (by with_unfolding_all rfl) (by with_unfolding_all rfl)
  exact h.trans (by with_unfolding_all rfl)

/-- C9: on a frame with the five required columns, all of length `n`, the
output has exactly the four columns `Date`, `Label`, `Reference`, `Amount` in
that order, each of length `n`. -/
theorem convert_shape (toDT : Val → PDate) (df out : DataFrame)
    (hok : (convert_statement toDT df).2 = Except.ok out)
    (n : ℕ) (hlen : ∀ c ∈ required, (df.get c).length = n) :
    out.columns = ["Date", "Label", "Reference", "Amount"] ∧
    (out.get "Date").length = n ∧
    (out.get "Label").length = n ∧
    (out.get "Reference").length = n ∧
    (out.get "Amount").length = n := by
  have hout := convert_ok_out hok
  subst hout
  refine ⟨rfl, ?_, ?_, ?_, ?_⟩
  · rw [outputOf_get_date, List.length_map]
    exact hlen _ (by decide)
  · rw [outputOf_get_label]
    exact hlen _ (by decide)
  · rw [outputOf_get_reference]
    exact hlen _ (by decide)
  · rw [outputOf_get_amount, List.length_map, List.length_zip, List.length_map,
      List.length_map, hlen "Debit" (by decide), hlen "Credit" (by decide), min_self]

/-- Witness for C9: the seven-row fixture frame yields the four output
columns with seven rows each. -/
theorem convert_shape_witness :
    (outputOf toDT0 dfEx).columns = ["Date", "Label", "Reference", "Amount"] ∧
    ((outputOf toDT0 dfEx).get "Date").length = 7 ∧
    ((outputOf toDT0 dfEx).get "Label").length = 7 ∧
    ((outputOf toDT0 dfEx).get "Reference").length = 7 ∧
    ((outputOf toDT0 dfEx).get "Amount").length = 7 :=
  convert_shape toDT0 dfEx (outputOf toDT0 dfEx) rfl 7 (by decide)

/-- C10: `convert_statement` never mutates its input frame: the frame after
the call (first component of the state-passing model) is the input frame,
whether validation fails or the conversion succeeds. -/
theorem convert_preserves_input (toDT : Val → PDate) (df : DataFrame) :
    (convert_statement toDT df).1 = df := by
  unfold convert_statement
  split <;> rfl

end BankConv
